import Mathlib

/-!
Verification of the IoT-Dev-Sim transmission subsystem.

Shallow embedding of the Python backend (`backend/app/models.py`,
`backend/app/transmission.py`, `backend/app/scheduler.py`,
`backend/app/transmission_state.py`, `backend/app/business_rules.py`).

Conventions of the embedding:
* Python dicts used as JSON rows are association lists `List (String × String)`.
* Python `None` becomes `Option.none`; functions that may raise return `Except`.
* Database writes on `Device` become functional updates; the collection of
  devices, connections, scheduler jobs and the in-memory state map of
  `TransmissionStateManager` are gathered in a `World` record that the
  stateful operations thread explicitly.
* The outcome of the external `client.send(payload)` call is a parameter
  (`SendOutcome`): it either returns `(success, response)` or raises.
* Timestamps (`datetime.utcnow()`) are a `Nat` parameter `now`.
-/

set_option linter.unusedVariables false

namespace IoTDevSim

/-- A parsed CSV/JSON row: a Python dict, modelled as an association list. -/
abbrev Row := List (String × String)

/-- Parsed content of `Device.csv_data`: the Python dict may carry a
`data` key and/or a `json_preview` key, each a list of rows.
`none` in a field means the key is absent. -/
structure CsvContent where
  data : Option (List Row)
  json_preview : Option (List Row)
deriving Repr, DecidableEq

/-- The two entries of the list Device.DEVICE_TYPES in models.py: WebApp and Sensor. -/
inductive DeviceType
  | WebApp
  | Sensor
deriving Repr, DecidableEq

/-- The fields of `Device` (models.py) that the transmission core reads or
writes.  `csv_data = none` models a device with no CSV loaded. -/
structure Device where
  id : Nat
  reference : String
  csv_data : Option CsvContent
  device_type : DeviceType
  transmission_frequency : Int
  transmission_enabled : Bool
  current_row_index : Nat
  last_transmission : Option Nat
  include_device_id_in_payload : Bool
deriving Repr, DecidableEq

/-- The fields of `Connection` (models.py) that the transmission core reads.
`type` ranges over the Connection.CONNECTION_TYPES list: MQTT, HTTPS, KAFKA. -/
structure Connection where
  id : Nat
  name : String
  type : String
  is_active : Bool
deriving Repr, DecidableEq

/-! ## Payload builder (models.py `Device.get_transmission_data` and helpers) -/

/-- Python dict assignment `row[k] = v`: any existing binding for `k` is
replaced; the model drops old bindings of `k` and appends the new one. -/
def rowSet (r : Row) (k v : String) : Row :=
  (r.filter fun p => p.1 != k) ++ [(k, v)]

/-- The shared row extraction of `_get_full_csv_data` and `_get_next_row_data`
(models.py lines 167-171 and 189-193): take `data`; fall back to
`json_preview` only when the `data` key is absent. -/
def dataRowsOf (c : CsvContent) : Option (List Row) :=
  match c.data with
  | some rows => some rows
  | none => c.json_preview

/-- Rows backing a device payload: `get_csv_data_parsed` then `dataRowsOf`. -/
def Device.payloadRows (d : Device) : Option (List Row) :=
  d.csv_data.bind dataRowsOf

/-- Model of the ISO timestamp: utcnow in isoformat with a Z suffix. -/
def isoTimestamp (now : Nat) : String :=
  toString now ++ "Z"

/-- Model of `Device._get_full_csv_data` (models.py lines 159-179): the whole dataset,
each row cloned, with `device_id` added when the flag requests it. -/
def Device.getFullCsvData (d : Device) : Option (List Row) :=
  match d.csv_data with
  | none => none
  | some c =>
    match dataRowsOf c with
    | none => none
    | some rows =>
      some (rows.map fun r =>
        if d.include_device_id_in_payload then rowSet r "device_id" d.reference else r)

/-- Model of `Device._get_next_row_data` (models.py lines 181-201): the single row at
`current_row_index`, cloned, annotated with a generation timestamp (and the
device reference when the flag requests it); `none` past the end. -/
def Device.getNextRowData (d : Device) (now : Nat) : Option Row :=
  match d.csv_data with
  | none => none
  | some c =>
    match dataRowsOf c with
    | none => none
    | some rows =>
      if h : d.current_row_index < rows.length then
        let row := rowSet (rows.get ⟨d.current_row_index, h⟩) "timestamp" (isoTimestamp now)
        some (if d.include_device_id_in_payload then rowSet row "device_id" d.reference else row)
      else
        none

/-- An outbound payload: a list of rows (WebApp) or a single row (Sensor). -/
inductive Payload
  | rows (rs : List Row)
  | single (r : Row)
deriving Repr, DecidableEq

/-- Model of `Device.get_transmission_data` (models.py lines 151-157). -/
def Device.get_transmission_data (d : Device) (now : Nat) : Option Payload :=
  match d.device_type with
  | .WebApp => (d.getFullCsvData).map .rows
  | .Sensor => (d.getNextRowData now).map .single

/-- Python truthiness test `if not data_to_send:` on the payload:
`None`, an empty list and an empty dict are all falsy. -/
def payloadFalsy : Option Payload → Bool
  | none => true
  | some (.rows rs) => rs.isEmpty
  | some (.single r) => r.isEmpty

/-! ## Device mutators (models.py) -/

/-- Model of `Device.advance_sensor_row` (models.py lines 230-234). -/
def Device.advance_sensor_row (d : Device) : Device :=
  if d.device_type = .Sensor then
    { d with current_row_index := d.current_row_index + 1 }
  else d

/-- Model of `Device.reset_sensor_position` (models.py lines 236-239). -/
def Device.reset_sensor_position (d : Device) : Device :=
  { d with current_row_index := 0 }

/-- Model of `Device.update_last_transmission` (models.py lines 241-244). -/
def Device.update_last_transmission (d : Device) (now : Nat) : Device :=
  { d with last_transmission := some now }

/-! ## Protocol client factory (connection_clients.py) -/

/-- Model of `ConnectionClientFactory.create_client` (connection_clients.py lines
320-339): returns a client for `MQTT` and `HTTPS`, and RAISES `ValueError`
for every other connection type (it never returns a falsy value, so the
`if not client:` guard in `transmit_device_data` is unreachable). -/
def create_client (c : Connection) : Except String String :=
  if c.type == "MQTT" then .ok "MQTT"
  else if c.type == "HTTPS" then .ok "HTTPS"
  else .error ("Tipo de conexion no soportado: " ++ c.type)

/-- Whether the factory yields a client rather than raising. -/
def clientSupported (c : Connection) : Bool :=
  c.type == "MQTT" || c.type == "HTTPS"

/-! ## Transmission executor (transmission.py `TransmissionManager`) -/

/-- Behaviour of the external `client.send(payload)` call: it either returns
a `(success, response)` pair or raises an exception. -/
inductive SendOutcome
  | ok (success : Bool) (response : String)
  | exn (msg : String)
deriving Repr, DecidableEq

/-- Model of `send` returned normally (did not raise). -/
def SendOutcome.returns : SendOutcome → Bool
  | .ok _ _ => true
  | .exn _ => false

/-- One row of `device_transmissions` as written by
`TransmissionManager.log_transmission` (transmission.py lines 40-61). -/
structure LogEntry where
  device_id : Nat
  connection_id : Nat
  transmission_type : String
  data_sent : Option Payload
  status : String
  response_data : Option String
  error_message : Option String
deriving Repr, DecidableEq

/-- The `transmission_type` classification of `log_transmission`:
a list is `FULL_CSV`, a dict is `SINGLE_ROW`, anything else keeps the
default `FULL_CSV`. -/
def transmissionTypeOf : Option Payload → String
  | some (.rows _) => "FULL_CSV"
  | some (.single _) => "SINGLE_ROW"
  | none => "FULL_CSV"

/-- Build the log entry `log_transmission` inserts. -/
def mkLog (device_id connection_id : Nat) (data_sent : Option Payload)
    (status : String) (response_data error_message : Option String) : LogEntry :=
  { device_id, connection_id, transmission_type := transmissionTypeOf data_sent,
    data_sent, status, response_data, error_message }

/-- Result of one executor invocation that returned (did not raise). -/
structure TransmitResult where
  success : Bool
  device : Device
  log : LogEntry
deriving Repr, DecidableEq

/-- Model of `TransmissionManager.transmit_device_data` (transmission.py lines 12-34).

Control flow of the source:
1. falsy payload: log FAILED "No data to send", return False, device untouched;
2. `_get_client_for_connection` runs OUTSIDE the `try`; for an unsupported
   connection type the factory raises `ValueError`, which propagates to the
   caller (modelled as `Except.error`) with no log entry and no update;
3. `client.send` inside the `try`: on a normal return the outcome is logged,
   the cursor advances iff success and the device is a Sensor, and
   `update_last_transmission` runs regardless of success;
4. if `send` raises, the exception is caught, a FAILED entry is logged, and
   neither the cursor nor `last_transmission` is updated. -/
def transmit_device_data (d : Device) (c : Connection) (send : SendOutcome)
    (now : Nat) : Except String TransmitResult :=
  let data := d.get_transmission_data now
  if payloadFalsy data then
    .ok { success := false, device := d,
          log := mkLog d.id c.id none "FAILED" none (some "No data to send") }
  else
    match create_client c with
    | .error e => .error e
    | .ok _client =>
      match send with
      | .ok succ resp =>
        let d1 := if succ && (d.device_type == .Sensor) then d.advance_sensor_row else d
        let d2 := d1.update_last_transmission now
        .ok { success := succ, device := d2,
              log := mkLog d.id c.id data (if succ then "SUCCESS" else "FAILED") (some resp) none }
      | .exn msg =>
        .ok { success := false, device := d,
              log := mkLog d.id c.id data "FAILED" none (some msg) }

/-- Device produced by an executor invocation, the raising case leaving the
device as it was (the factory raises before any update). -/
def deviceAfter (r : Except String TransmitResult) (d : Device) : Device :=
  match r with
  | .ok res => res.device
  | .error _ => d

/-! ## APScheduler-backed scheduler (scheduler.py `TransmissionScheduler`)

APScheduler stores at most one job per string id; `add_job` with
`replace_existing=True` upserts, `remove_job`, `pause_job` and `resume_job`
raise `JobLookupError` for a missing id.  The job store is an association
list keyed by the job id string; every operation keeps at most one entry
per id. -/

/-- Persisted attributes of one APScheduler interval job. -/
structure Job where
  device_id : Nat
  connection_id : Nat
  interval_seconds : Int
  paused : Bool
deriving Repr, DecidableEq

/-- The scheduler job store. -/
structure Sched where
  jobs : List (String × Job)
deriving Repr, DecidableEq

/-- The job id format of scheduler.py: the literal transmission followed by
the device id and the connection id, separated by underscores. -/
def jobId (device_id connection_id : Nat) : String :=
  "transmission_" ++ toString device_id ++ "_" ++ toString connection_id

namespace Sched

/-- APScheduler `get_job`. -/
def getJob (s : Sched) (id : String) : Option Job :=
  (s.jobs.find? fun p => p.1 == id).map (·.2)

/-- APScheduler `add_job(..., id, replace_existing=True)`: upsert by id. -/
def addJobReplace (s : Sched) (id : String) (j : Job) : Sched :=
  { jobs := (s.jobs.filter fun p => p.1 != id) ++ [(id, j)] }

/-- Model of `TransmissionScheduler.schedule_transmission` (scheduler.py lines
153-202): `frequency_seconds <= 0` is rejected (`return None`, nothing
added); otherwise the job is created or replaced under its id and the id is
returned. -/
def schedule_transmission (s : Sched) (device_id connection_id : Nat)
    (frequency_seconds : Int) : Option String × Sched :=
  if frequency_seconds ≤ 0 then (none, s)
  else
    let id := jobId device_id connection_id
    (some id,
     s.addJobReplace id
       { device_id, connection_id, interval_seconds := frequency_seconds, paused := false })

/-- Model of `TransmissionScheduler.pause_transmission` (scheduler.py lines 204-211):
`pause_job` wrapped in `try/except`, returning False when the job is
missing. -/
def pause_transmission (s : Sched) (device_id connection_id : Nat) : Bool × Sched :=
  let id := jobId device_id connection_id
  if (s.getJob id).isSome then
    (true, { jobs := s.jobs.map fun p => if p.1 == id then (p.1, { p.2 with paused := true }) else p })
  else
    (false, s)

/-- Model of `TransmissionScheduler.resume_transmission` (scheduler.py lines 213-220). -/
def resume_transmission (s : Sched) (device_id connection_id : Nat) : Bool × Sched :=
  let id := jobId device_id connection_id
  if (s.getJob id).isSome then
    (true, { jobs := s.jobs.map fun p => if p.1 == id then (p.1, { p.2 with paused := false }) else p })
  else
    (false, s)

/-- Model of `TransmissionScheduler.stop_transmission` (scheduler.py lines 222-229):
`remove_job` wrapped in `try/except`, returning False (not raising) when no
job exists for the id. -/
def stop_transmission (s : Sched) (device_id connection_id : Nat) : Bool × Sched :=
  let id := jobId device_id connection_id
  if (s.getJob id).isSome then
    (true, { jobs := s.jobs.filter fun p => p.1 != id })
  else
    (false, s)

/-- The `exists` field of `TransmissionScheduler.get_job_status`
(scheduler.py lines 233-247). -/
def job_exists (s : Sched) (device_id connection_id : Nat) : Bool :=
  (s.getJob (jobId device_id connection_id)).isSome

/-- The ids reported by `TransmissionScheduler.get_scheduled_jobs`
(scheduler.py lines 325-336), one entry per stored job. -/
def scheduled_job_ids (s : Sched) : List String :=
  s.jobs.map (·.1)

end Sched

/-! ## Python string helpers used by the business rules -/

/-- Model of `sub` occurs at the head of `s`. -/
def charsStartWith : List Char → List Char → Bool
  | _, [] => true
  | [], _ :: _ => false
  | a :: as, b :: bs => a == b && charsStartWith as bs

/-- Python `sub in s` on strings: some suffix of `s` starts with `sub`. -/
def strContains (s sub : String) : Bool :=
  go s.data sub.data
where
  go : List Char → List Char → Bool
    | [], sub => sub.isEmpty
    | a :: t, sub => charsStartWith (a :: t) sub || go t sub

/-- Python `s.split(sep)` for a one-character separator. -/
def pySplit (s : String) (sep : Char) : List String :=
  go s.data []
where
  go : List Char → List Char → List String
    | [], cur => [String.mk cur.reverse]
    | c :: rest, cur =>
      if c == sep then String.mk cur.reverse :: go rest [] else go rest (c :: cur)

/-- Python `int(s)` for the non-negative decimal strings appearing in job
ids; raising `ValueError` becomes `none`. -/
def pyInt? (s : String) : Option Nat :=
  if s.data ≠ [] ∧ s.data.all (·.isDigit) then
    some (s.data.foldl (fun n c => n * 10 + (c.toNat - 48)) 0)
  else none

/-! ## Business rules (business_rules.py `TransmissionBusinessRules`) -/

def MAX_CONCURRENT_TRANSMISSIONS_PER_DEVICE : Nat := 1

def MAX_GLOBAL_CONCURRENT_TRANSMISSIONS : Nat := 10

/-- Model of `TransmissionBusinessRules._get_active_transmissions` (business_rules.py
lines 32-56): walk the scheduled jobs and keep those whose id contains the
substring `device_`, parsing `parts[1]` of the underscore-split id as the
device id.  (The ids the scheduler actually creates start with
`transmission_`, which does not contain `device_`.) -/
def _get_active_transmissions (s : Sched) : List (Nat × String) :=
  (Sched.scheduled_job_ids s).foldr
    (fun id acc =>
      if strContains id "device_" then
        let parts := pySplit id '_'
        if parts.length ≥ 2 then
          match parts[1]? with
          | some p1 =>
            match pyInt? p1 with
            | some did => (did, id) :: acc
            | none => acc
          | none => acc
        else acc
      else acc)
    []

/-- Model of `TransmissionBusinessRules.can_start_transmission` (business_rules.py
lines 16-30): per-device cap then global cap over
`_get_active_transmissions`. -/
def can_start_transmission (s : Sched) (device_id : Nat) : Bool × Option String :=
  let active := _get_active_transmissions s
  let device_transmissions := active.filter fun t => t.1 == device_id
  if device_transmissions.length ≥ MAX_CONCURRENT_TRANSMISSIONS_PER_DEVICE then
    (false, some ("Device " ++ toString device_id ++ " already has maximum concurrent transmissions"))
  else if active.length ≥ MAX_GLOBAL_CONCURRENT_TRANSMISSIONS then
    (false, some "Maximum global concurrent transmissions reached")
  else
    (true, none)

/-- Model of `TransmissionBusinessRules.validate_frequency_by_device_type`
(business_rules.py lines 96-113): Sensor requires `1 <= f <= 3600`, WebApp
requires `60 <= f <= 86400`; a violation raises `ValidationError`. -/
def validate_frequency_by_device_type (device_type : DeviceType) (frequency : Int) :
    Except String Bool :=
  match device_type with
  | .Sensor =>
    if frequency < 1 then .error "Sensor devices must have frequency of at least 1 second"
    else if frequency > 3600 then .error "Sensor devices should not exceed 1 hour frequency"
    else .ok true
  | .WebApp =>
    if frequency < 60 then .error "WebApp devices must have frequency of at least 60 seconds"
    else if frequency > 86400 then .error "WebApp devices should not exceed 24 hour frequency"
    else .ok true

/-! ## The world threaded through the stateful operations -/

/-- State manager state strings (`TransmissionStateManager.STATES`). -/
def STATE_INACTIVE : String := "inactive"

def STATE_ACTIVE : String := "active"

def STATE_PAUSED : String := "paused"

def STATE_MANUAL : String := "manual"

/-- The record store plus the process-local singletons: devices and
connections (read via `Device.get_by_id`, `Connection.get_by_id`,
`Connection.get_all`), the scheduler job store, and the in-memory
`TransmissionStateManager.device_states` map. -/
structure World where
  devices : List Device
  connections : List Connection
  sched : Sched
  device_states : List (Nat × String)
deriving Repr, DecidableEq

/-- Model of `Device.get_by_id` over the record store. -/
def World.getDevice (w : World) (device_id : Nat) : Option Device :=
  w.devices.find? fun d => d.id == device_id

/-- Model of `Connection.get_by_id` over the record store. -/
def World.getConnection (w : World) (connection_id : Nat) : Option Connection :=
  w.connections.find? fun c => c.id == connection_id

/-- The active connections, as filtered by the state manager
(the list comprehension keeping connections whose is_active attribute holds). -/
def World.activeConnections (w : World) : List Connection :=
  w.connections.filter (·.is_active)

/-- Persisting an updated device back into the record store. -/
def World.saveDevice (w : World) (d : Device) : World :=
  { w with devices := w.devices.map fun x => if x.id == d.id then d else x }

/-- Python dict assignment `self.device_states[device_id] = state`. -/
def statesSet (m : List (Nat × String)) (k : Nat) (v : String) : List (Nat × String) :=
  (k, v) :: (m.filter fun p => p.1 != k)

/-! ## Transmission state manager (transmission_state.py) -/

namespace TSM

/-- Model of `TransmissionStateManager.get_device_state` (transmission_state.py lines
159-177): if any ACTIVE connection has a scheduled job for the device, the
state is derived (`active` when the device exists and is enabled, `paused`
when it is missing or disabled); otherwise the in-memory map is consulted
with default `inactive`. -/
def get_device_state (w : World) (device_id : Nat) : String :=
  match w.activeConnections.find? (fun conn => Sched.job_exists w.sched device_id conn.id) with
  | some _ =>
    match w.getDevice device_id with
    | some d => if d.transmission_enabled then STATE_ACTIVE else STATE_PAUSED
    | none => STATE_PAUSED
  | none => ((w.device_states.lookup device_id).getD STATE_INACTIVE)

/-- Model of `TransmissionStateManager.can_execute_manual` (transmission_state.py
lines 153-157). -/
def can_execute_manual (w : World) (device_id : Nat) : Bool :=
  let s := get_device_state w device_id
  s == STATE_INACTIVE || s == STATE_PAUSED

/-- Model of `TransmissionStateManager.start_automatic_transmission`
(transmission_state.py lines 22-61): device found, frequency positive,
connection found and active, then `scheduler.schedule_transmission`; on a
job id the map records `active`. -/
def start_automatic_transmission (w : World) (device_id connection_id : Nat) :
    Bool × World :=
  match w.getDevice device_id with
  | none => (false, w)
  | some d =>
    if d.transmission_frequency ≤ 0 then (false, w)
    else
      match w.getConnection connection_id with
      | none => (false, w)
      | some c =>
        if !c.is_active then (false, w)
        else
          match Sched.schedule_transmission w.sched device_id connection_id d.transmission_frequency with
          | (some _, s') =>
            (true, { w with sched := s', device_states := statesSet w.device_states device_id STATE_ACTIVE })
          | (none, s') => (false, { w with sched := s' })

/-- Model of `TransmissionStateManager.pause_transmission` (transmission_state.py
lines 63-78): gated on the RAW in-memory map holding `active` (not on the
derived state); on success pauses the job on every active connection and
records `paused`. -/
def pause_transmission (w : World) (device_id : Nat) : Bool × World :=
  if w.device_states.lookup device_id == some STATE_ACTIVE then
    let s' := w.activeConnections.foldl
      (fun s conn => (Sched.pause_transmission s device_id conn.id).2) w.sched
    (true, { w with sched := s', device_states := statesSet w.device_states device_id STATE_PAUSED })
  else
    (false, w)

/-- Model of `TransmissionStateManager.resume_transmission` (transmission_state.py
lines 80-95): gated on the raw map holding `paused`. -/
def resume_transmission (w : World) (device_id : Nat) : Bool × World :=
  if w.device_states.lookup device_id == some STATE_PAUSED then
    let s' := w.activeConnections.foldl
      (fun s conn => (Sched.resume_transmission s device_id conn.id).2) w.sched
    (true, { w with sched := s', device_states := statesSet w.device_states device_id STATE_ACTIVE })
  else
    (false, w)

/-- Model of `TransmissionStateManager.stop_transmission` (transmission_state.py
lines 97-111): removes the job on every active connection, records
`inactive` and returns True (the scheduler is present in the model). -/
def stop_transmission (w : World) (device_id : Nat) : Bool × World :=
  let s' := w.activeConnections.foldl
    (fun s conn => (Sched.stop_transmission s device_id conn.id).2) w.sched
  (true, { w with sched := s', device_states := statesSet w.device_states device_id STATE_INACTIVE })

/-- Result dict of `execute_manual_transmission`. -/
structure ManualResult where
  success : Bool
  message : Option String
  error : Option String
  current_state : Option String
deriving Repr, DecidableEq

/-- Outcome of `execute_manual_transmission`: the result dict, the world
after the call, and the log entries written during it. -/
structure ManualOutcome where
  result : ManualResult
  world : World
  logs : List LogEntry
deriving Repr, DecidableEq

/-- Model of `TransmissionStateManager.execute_manual_transmission`
(transmission_state.py lines 113-151): refused with a state-conflict dict
(carrying the current state) unless `can_execute_manual`; otherwise the map
temporarily holds `manual`, the executor runs, and the `finally` block
writes the original state (the map default `inactive` when absent) back. -/
def execute_manual_transmission (w : World) (device_id connection_id : Nat)
    (send : SendOutcome) (now : Nat) : ManualOutcome :=
  if can_execute_manual w device_id then
    let original := (w.device_states.lookup device_id).getD STATE_INACTIVE
    let restored (w' : World) : World :=
      { w' with device_states := statesSet w'.device_states device_id original }
    match w.getDevice device_id, w.getConnection connection_id with
    | some d, some c =>
      match transmit_device_data d c send now with
      | .ok r =>
        { result := { success := r.success,
                      message := some (if r.success then "Manual transmission completed"
                                       else "Manual transmission failed"),
                      error := none, current_state := none },
          world := restored (w.saveDevice r.device),
          logs := [r.log] }
      | .error e =>
        { result := { success := false, message := none, error := some e, current_state := none },
          world := restored w,
          logs := [] }
    | _, _ =>
      { result := { success := false, message := none,
                    error := some "Device or connection not found", current_state := none },
        world := restored w,
        logs := [] }
  else
    { result := { success := false, message := none,
                  error := some "Cannot execute manual transmission while automatic transmission is active or another manual is in progress",
                  current_state := some (get_device_state w device_id) },
      world := w,
      logs := [] }

end TSM

/-! ## Scheduled job callback (scheduler.py `execute_transmission_job`) -/

/-- The row extraction of `execute_transmission_job` (scheduler.py line 70):
data-key lookup, with the json_preview list (default empty) as fallback --- the
Python `or` falls through on a falsy (absent OR empty) `data` list. -/
def jobDataRows (c : CsvContent) : List Row :=
  match c.data with
  | some rows => if rows.isEmpty then (c.json_preview.getD []) else rows
  | none => c.json_preview.getD []

/-- Model of `execute_transmission_job` (scheduler.py lines 29-82), given the
snapshots in `w`:
* missing device or connection: return, nothing changes;
* `transmission_enabled` false: the job stops itself;
* Sensor with no parsed CSV: return;
* Sensor whose `current_row_index` has reached the end of the rows: the
  position is RESET TO 0 (`reset_sensor_position`) and transmission
  proceeds --- the device is neither disabled nor unscheduled;
* then `transmit_device_data` runs; any exception it raises is swallowed by
  the catch-all (`except Exception`), with no further effect. -/
def execute_transmission_job (w : World) (device_id connection_id : Nat)
    (send : SendOutcome) (now : Nat) : World × List LogEntry :=
  match w.getDevice device_id with
  | none => (w, [])
  | some d =>
    match w.getConnection connection_id with
    | none => (w, [])
    | some c =>
      if !d.transmission_enabled then
        ({ w with sched := (Sched.stop_transmission w.sched device_id connection_id).2 }, [])
      else
        let step : Option Device :=
          if d.device_type = .Sensor then
            match d.csv_data with
            | none => none
            | some cc =>
              if d.current_row_index ≥ (jobDataRows cc).length then
                some d.reset_sensor_position
              else some d
          else some d
        match step with
        | none => (w, [])
        | some d1 =>
          match transmit_device_data d1 c send now with
          | .ok r => (w.saveDevice r.device, [r.log])
          | .error _ => (w, [])

/-! ## Concrete fixtures used by witnesses and counterexamples -/

/-- A three-row dataset. -/
def rows3 : List Row := [[("v", "1")], [("v", "2")], [("v", "3")]]

/-- A Sensor device on the last row of its three-row dataset
(`current_row_index = 2`), transmission enabled. -/
def devLastRow : Device :=
  { id := 1, reference := "REF1",
    csv_data := some { data := some rows3, json_preview := none },
    device_type := .Sensor, transmission_frequency := 5, transmission_enabled := true,
    current_row_index := 2, last_transmission := none, include_device_id_in_payload := false }

/-- An active MQTT connection. -/
def connMqtt : Connection := { id := 1, name := "c1", type := "MQTT", is_active := true }

/-- The job the scheduler holds for `devLastRow` on `connMqtt`. -/
def jobDev1 : Job := { device_id := 1, connection_id := 1, interval_seconds := 5, paused := false }

/-- World with `devLastRow` actively scheduled on `connMqtt`. -/
def wLastRow : World :=
  { devices := [devLastRow], connections := [connMqtt],
    sched := { jobs := [(jobId 1 1, jobDev1)] }, device_states := [(1, STATE_ACTIVE)] }

/-- A Sensor device with no CSV loaded: its payload is nil. -/
def devNoData : Device :=
  { id := 2, reference := "REF2", csv_data := none,
    device_type := .Sensor, transmission_frequency := 5, transmission_enabled := true,
    current_row_index := 0, last_transmission := none, include_device_id_in_payload := false }

/-- Ten scheduled jobs, for devices 1..10 on connection 1: the default
global cap of `can_start_transmission` is exactly reached. -/
def schedTen : Sched :=
  { jobs := (List.range 10).map fun i =>
      (jobId (i + 1) 1,
       { device_id := i + 1, connection_id := 1, interval_seconds := 5, paused := false }) }

/-- An eleventh device (WebApp, valid frequency) not yet scheduled. -/
def devEleven : Device :=
  { id := 11, reference := "R11", csv_data := none, device_type := .WebApp,
    transmission_frequency := 300, transmission_enabled := false,
    current_row_index := 0, last_transmission := none, include_device_id_in_payload := false }

/-- World at the global cap: ten running jobs, device 11 about to start. -/
def wAtCap : World :=
  { devices := [devEleven], connections := [connMqtt], sched := schedTen, device_states := [] }

/-- World after a process restart: the scheduler store still holds the job
for device 1, but the in-memory `device_states` map is empty. -/
def wRestart : World :=
  { devices := [devLastRow], connections := [connMqtt],
    sched := { jobs := [(jobId 1 1, jobDev1)] }, device_states := [] }

/-- A WebApp (CONTINUOUS-category) device with frequency 30, below the
60-second floor of `validate_frequency_by_device_type`. -/
def devWebApp30 : Device :=
  { id := 3, reference := "REF3", csv_data := none, device_type := .WebApp,
    transmission_frequency := 30, transmission_enabled := false,
    current_row_index := 0, last_transmission := none, include_device_id_in_payload := false }

/-- World for the frequency-bound scenario: `devWebApp30` with an active
connection and an empty scheduler. -/
def wWebApp30 : World :=
  { devices := [devWebApp30], connections := [connMqtt],
    sched := { jobs := [] }, device_states := [] }

/-- A Sensor device configured with frequency 0. -/
def devFreqZero : Device :=
  { id := 4, reference := "REF4", csv_data := none, device_type := .Sensor,
    transmission_frequency := 0, transmission_enabled := false,
    current_row_index := 0, last_transmission := none, include_device_id_in_payload := false }

/-- World holding `devFreqZero` and an active connection. -/
def wFreqZero : World :=
  { devices := [devFreqZero], connections := [connMqtt],
    sched := { jobs := [] }, device_states := [] }

/-! ## Helper lemmas -/

theorem find?_beq_filter_bne {α : Type} [BEq α] [LawfulBEq α] (l : List (α × Job)) (id : α) :
    (l.filter fun p => p.1 != id).find? (fun p => p.1 == id) = none := by
  induction l with
  | nil => rfl
  | cons a t ih =>
    by_cases h : a.1 = id
    · simp [List.filter, h, ih]
    · simp [List.filter, List.find?, bne, beq_eq_false_iff_ne.mpr h, ih]

theorem getJob_addJobReplace_self (s : Sched) (id : String) (j : Job) :
    Sched.getJob (s.addJobReplace id j) id = some j := by
  simp [Sched.getJob, Sched.addJobReplace, List.find?_append, find?_beq_filter_bne]

theorem getJob_stop_self (s : Sched) (d c : Nat) :
    Sched.getJob (Sched.stop_transmission s d c).2 (jobId d c) = none := by
  unfold Sched.stop_transmission
  by_cases h : (Sched.getJob s (jobId d c)).isSome
  · simp only [h, if_true]
    simp [Sched.getJob, find?_beq_filter_bne]
  · simp only [h, if_false]
    exact Option.not_isSome_iff_eq_none.mp h

theorem getJob_stop_none {s : Sched} {id : String} (d c : Nat)
    (h : Sched.getJob s id = none) :
    Sched.getJob (Sched.stop_transmission s d c).2 id = none := by
  unfold Sched.stop_transmission
  by_cases hj : (Sched.getJob s (jobId d c)).isSome
  · simp only [hj, if_true]
    simp only [Sched.getJob, Option.map_eq_none'] at h ⊢
    rw [List.find?_eq_none] at h ⊢
    intro x hx
    exact h x (List.mem_of_mem_filter hx)
  · simpa [hj] using h

/-- Folding `stop_transmission` over a connection list never creates a job. -/
theorem foldl_stop_preserves_none {id : String} (d : Nat) (l : List Connection) :
    ∀ s : Sched, Sched.getJob s id = none →
      Sched.getJob (l.foldl (fun s conn => (Sched.stop_transmission s d conn.id).2) s) id = none := by
  induction l with
  | nil => intro s h; simpa using h
  | cons c t ih =>
    intro s h
    exact ih _ (getJob_stop_none d c.id h)

/-- After folding `stop_transmission` over a connection list, no job for the
device remains on any connection of the list. -/
theorem foldl_stop_removes (d : Nat) (l : List Connection) :
    ∀ s : Sched, ∀ c ∈ l,
      Sched.getJob (l.foldl (fun s conn => (Sched.stop_transmission s d conn.id).2) s) (jobId d c.id) = none := by
  induction l with
  | nil => intro s c hc; cases hc
  | cons c0 t ih =>
    intro s c hc
    rcases List.mem_cons.mp hc with rfl | hmem
    · exact foldl_stop_preserves_none d t _ (getJob_stop_self s d c.id)
    · exact ih _ c hmem

/-- Stopping a job that does not exist leaves the scheduler untouched. -/
theorem stop_of_none {s : Sched} {d c : Nat}
    (h : Sched.getJob s (jobId d c) = none) :
    Sched.stop_transmission s d c = (false, s) := by
  simp [Sched.stop_transmission, h]

/-- Folding `stop_transmission` over connections that hold no job for the
device is the identity. -/
theorem foldl_stop_of_all_none (d : Nat) (l : List Connection) :
    ∀ s : Sched, (∀ c ∈ l, Sched.getJob s (jobId d c.id) = none) →
      l.foldl (fun s conn => (Sched.stop_transmission s d conn.id).2) s = s := by
  induction l with
  | nil => intro s _; rfl
  | cons c0 t ih =>
    intro s h
    have h0 : (Sched.stop_transmission s d c0.id).2 = s := by
      rw [stop_of_none (h c0 (List.mem_cons_self c0 t))]
    simp only [List.foldl_cons, h0]
    exact ih s fun c hc => h c (List.mem_cons_of_mem _ hc)

theorem statesSet_lookup_self (m : List (Nat × String)) (k : Nat) (v : String) :
    (statesSet m k v).lookup k = some v := by
  simp [statesSet, List.lookup]

theorem statesSet_idem (m : List (Nat × String)) (k : Nat) (v : String) :
    statesSet (statesSet m k v) k v = statesSet m k v := by
  simp [statesSet, List.filter_filter]

/-! ## Claim C2: manual exclusion -/

/-- C2: whenever `get_device_state` derives ACTIVE for a device, a manual
execution request fails with a state-conflict result carrying the current
state, performs no send (no log entry, world untouched); and
`can_execute_manual` accepts exactly the states INACTIVE and PAUSED. -/
theorem c2_manual_exclusion (w : World) (did cid : Nat) (send : SendOutcome) (now : Nat)
    (h : TSM.get_device_state w did = STATE_ACTIVE) :
    (TSM.execute_manual_transmission w did cid send now).result.success = false ∧
    ((TSM.execute_manual_transmission w did cid send now).result.error).isSome = true ∧
    (TSM.execute_manual_transmission w did cid send now).result.current_state = some STATE_ACTIVE ∧
    (TSM.execute_manual_transmission w did cid send now).world = w ∧
    (TSM.execute_manual_transmission w did cid send now).logs = [] ∧
    (∀ w' d', TSM.can_execute_manual w' d' = true ↔
      (TSM.get_device_state w' d' = STATE_INACTIVE ∨ TSM.get_device_state w' d' = STATE_PAUSED)) := by
  have hcan : TSM.can_execute_manual w did = false := by
    simp only [TSM.can_execute_manual, h]
    decide
  simp only [TSM.execute_manual_transmission, hcan, Bool.false_eq_true, if_false, h]
  refine ⟨by trivial, by trivial, by trivial, by trivial, by trivial, ?_⟩
  intro w' d'
  simp [TSM.can_execute_manual, Bool.or_eq_true, beq_iff_eq]

theorem c2_manual_exclusion_witness :
    TSM.get_device_state wLastRow 1 = STATE_ACTIVE ∧
    (TSM.execute_manual_transmission wLastRow 1 1 (.ok true "OK") 7).result.success = false ∧
    (TSM.execute_manual_transmission wLastRow 1 1 (.ok true "OK") 7).world = wLastRow ∧
    (TSM.execute_manual_transmission wLastRow 1 1 (.ok true "OK") 7).logs = [] :=
  ⟨by decide,
   (c2_manual_exclusion wLastRow 1 1 (.ok true "OK") 7 (by decide)).1,
   (c2_manual_exclusion wLastRow 1 1 (.ok true "OK") 7 (by decide)).2.2.2.1,
   (c2_manual_exclusion wLastRow 1 1 (.ok true "OK") 7 (by decide)).2.2.2.2.1⟩

/-! ## Claim C9: pause/resume gated on the in-memory map only -/

/-- C9: `pause_transmission` succeeds only when the raw in-memory
`device_states` map records ACTIVE (and `resume` only on PAUSED); with an
empty map --- e.g. right after a process restart --- both return False and
change nothing, even if the derived state is ACTIVE. -/
theorem c9_pause_resume_gated (w : World) (d : Nat) :
    (w.device_states.lookup d ≠ some STATE_ACTIVE → TSM.pause_transmission w d = (false, w)) ∧
    (w.device_states.lookup d ≠ some STATE_PAUSED → TSM.resume_transmission w d = (false, w)) ∧
    (w.device_states = [] →
      TSM.pause_transmission w d = (false, w) ∧ TSM.resume_transmission w d = (false, w)) := by
  refine ⟨?_, ?_, ?_⟩
  · intro h
    simp [TSM.pause_transmission, beq_eq_false_iff_ne.mpr h]
  · intro h
    simp [TSM.resume_transmission, beq_eq_false_iff_ne.mpr h]
  · intro h
    constructor
    · simp [TSM.pause_transmission, h]
    · simp [TSM.resume_transmission, h]

theorem c9_pause_resume_gated_witness :
    TSM.get_device_state wRestart 1 = STATE_ACTIVE ∧
    TSM.pause_transmission wRestart 1 = (false, wRestart) ∧
    TSM.resume_transmission wRestart 1 = (false, wRestart) :=
  ⟨by decide,
   ((c9_pause_resume_gated wRestart 1).2.2 rfl).1,
   ((c9_pause_resume_gated wRestart 1).2.2 rfl).2⟩

/-! ## Claim C7: stop is idempotent -/

/-- C7: the scheduler-level `stop_transmission` returns False (it does not
raise) when no job exists; the state-manager `stop_transmission` returns
True, leaves the derived state INACTIVE, and running it a second time
returns the same result on an unchanged world. -/
theorem c7_stop_idempotent (w : World) (d : Nat) (s : Sched) (dc cc : Nat)
    (h : Sched.getJob s (jobId dc cc) = none) :
    Sched.stop_transmission s dc cc = (false, s) ∧
    (TSM.stop_transmission w d).1 = true ∧
    TSM.get_device_state (TSM.stop_transmission w d).2 d = STATE_INACTIVE ∧
    TSM.stop_transmission (TSM.stop_transmission w d).2 d = TSM.stop_transmission w d := by
  have hstep : ∀ w0 : World, TSM.stop_transmission w0 d =
      (true, { w0 with
        sched := w0.activeConnections.foldl
          (fun s conn => (Sched.stop_transmission s d conn.id).2) w0.sched,
        device_states := statesSet w0.device_states d STATE_INACTIVE }) := fun _ => rfl
  have hremoved : ∀ c ∈ w.activeConnections,
      Sched.getJob ((TSM.stop_transmission w d).2).sched (jobId d c.id) = none := by
    intro c hc
    rw [hstep w]
    exact foldl_stop_removes d w.activeConnections w.sched c hc
  refine ⟨stop_of_none h, by rw [hstep w], ?_, ?_⟩
  · have hconn : ((TSM.stop_transmission w d).2).activeConnections = w.activeConnections := by
      rw [hstep w]; rfl
    have hfind : ((TSM.stop_transmission w d).2).activeConnections.find?
        (fun conn => Sched.job_exists ((TSM.stop_transmission w d).2).sched d conn.id) = none := by
      rw [hconn]
      exact List.find?_eq_none.mpr fun c hc => by
        simp [Sched.job_exists, hremoved c hc]
    simp only [TSM.get_device_state, hfind]
    have : ((TSM.stop_transmission w d).2).device_states.lookup d = some STATE_INACTIVE := by
      rw [hstep w]
      exact statesSet_lookup_self w.device_states d STATE_INACTIVE
    simp [this]
  · rw [hstep w, hstep _]
    have hconn : ({ w with
        sched := w.activeConnections.foldl
          (fun s conn => (Sched.stop_transmission s d conn.id).2) w.sched,
        device_states := statesSet w.device_states d STATE_INACTIVE } : World).activeConnections
        = w.activeConnections := rfl
    rw [hconn]
    have hsched : w.activeConnections.foldl
        (fun s conn => (Sched.stop_transmission s d conn.id).2)
        (w.activeConnections.foldl
          (fun s conn => (Sched.stop_transmission s d conn.id).2) w.sched) =
        w.activeConnections.foldl
          (fun s conn => (Sched.stop_transmission s d conn.id).2) w.sched :=
      foldl_stop_of_all_none d w.activeConnections _
        (fun c hc => by
          have := hremoved c hc
          rwa [hstep w] at this)
    simp [hsched, statesSet_idem]

theorem c7_stop_idempotent_witness :
    Sched.stop_transmission { jobs := [] } 5 5 = (false, { jobs := [] }) ∧
    (TSM.stop_transmission wLastRow 1).1 = true ∧
    TSM.get_device_state (TSM.stop_transmission wLastRow 1).2 1 = STATE_INACTIVE ∧
    TSM.stop_transmission (TSM.stop_transmission wLastRow 1).2 1 = TSM.stop_transmission wLastRow 1 :=
  c7_stop_idempotent wLastRow 1 { jobs := [] } 5 5 (by decide)

/-! ## Claim C10: the derived state query -/

/-- C10: `get_device_state` returns the derived state (`active` when the
device exists and is enabled, `paused` when it is missing or disabled)
exactly when some active connection holds a job for the device; with no
such job it falls back to the in-memory map with default `inactive` --- so
MANUAL is observable only through the map while no job exists. -/
theorem c10_derived_state (w : World) (d : Nat) :
    ((∃ c ∈ w.activeConnections, Sched.job_exists w.sched d c.id = true) →
       TSM.get_device_state w d =
         (match w.getDevice d with
          | some dev => if dev.transmission_enabled then STATE_ACTIVE else STATE_PAUSED
          | none => STATE_PAUSED)) ∧
    ((∀ c ∈ w.activeConnections, Sched.job_exists w.sched d c.id = false) →
       TSM.get_device_state w d = (w.device_states.lookup d).getD STATE_INACTIVE) ∧
    (TSM.get_device_state w d = STATE_MANUAL →
       (∀ c ∈ w.activeConnections, Sched.job_exists w.sched d c.id = false) ∧
       w.device_states.lookup d = some STATE_MANUAL) := by
  cases hfind : w.activeConnections.find? (fun conn => Sched.job_exists w.sched d conn.id) with
  | none =>
    have hall := List.find?_eq_none.mp hfind
    have hstate : TSM.get_device_state w d = (w.device_states.lookup d).getD STATE_INACTIVE := by
      simp [TSM.get_device_state, hfind]
    refine ⟨?_, fun _ => hstate, ?_⟩
    · rintro ⟨c, hc, hj⟩
      exact absurd hj (hall c hc)
    · intro hm
      refine ⟨fun c hc => Bool.not_eq_true _ ▸ hall c hc, ?_⟩
      rw [hstate] at hm
      cases hl : w.device_states.lookup d with
      | none => rw [hl] at hm; exact absurd hm (by decide)
      | some v => rw [hl] at hm; simpa using hm
  | some c0 =>
    have hc0 : Sched.job_exists w.sched d c0.id = true := by
      have h' := List.find?_some hfind
      simpa using h'
    have hmem : c0 ∈ w.activeConnections := List.mem_of_find?_eq_some hfind
    have hstate : TSM.get_device_state w d =
        (match w.getDevice d with
         | some dev => if dev.transmission_enabled then STATE_ACTIVE else STATE_PAUSED
         | none => STATE_PAUSED) := by
      simp [TSM.get_device_state, hfind]
    refine ⟨fun _ => hstate, ?_, ?_⟩
    · intro hall
      rw [hall c0 hmem] at hc0
      exact absurd hc0 (by decide)
    · intro hm
      exfalso
      rw [hstate] at hm
      cases hdev : w.getDevice d with
      | none => rw [hdev] at hm; exact absurd hm (by decide)
      | some dev =>
        rw [hdev] at hm
        by_cases he : dev.transmission_enabled <;> simp [he] at hm <;> exact absurd hm (by decide)

theorem c10_derived_state_witness :
    TSM.get_device_state wLastRow 1 =
      (match wLastRow.getDevice 1 with
       | some dev => if dev.transmission_enabled then STATE_ACTIVE else STATE_PAUSED
       | none => STATE_PAUSED) ∧
    TSM.get_device_state wAtCap 11 = (wAtCap.device_states.lookup 11).getD STATE_INACTIVE :=
  ⟨(c10_derived_state wLastRow 1).1 ⟨connMqtt, by decide, by decide⟩,
   (c10_derived_state wAtCap 11).2.1 (by decide)⟩

/-! ## Claim C6: schedule rejects non-positive intervals and upserts by key -/

theorem filter_beq_of_filter_bne (l : List (String × Job)) (id : String) :
    ((l.filter fun p => p.1 != id).filter fun p => p.1 == id) = [] := by
  rw [List.filter_filter]
  have : ∀ p : String × Job, ((p.1 == id) && (p.1 != id)) = false := by
    intro p
    cases h : p.1 == id <;> simp [bne, h]
  simp [this]

theorem addJobReplace_idem (s : Sched) (id : String) (j : Job) :
    (s.addJobReplace id j).addJobReplace id j = s.addJobReplace id j := by
  have hsingle : (([(id, j)] : List (String × Job)).filter fun p => p.1 != id) = [] := by
    simp [List.filter]
  simp [Sched.addJobReplace, List.filter_append, List.filter_filter, hsingle,
    Bool.and_self]

/-- C6: `schedule_transmission` rejects `interval <= 0` (no job is created,
the store is untouched); for a positive interval it returns the key-derived
job id, stores the job under that id, is idempotent under re-scheduling,
and leaves exactly one job under the key. -/
theorem c6_schedule_upsert (s : Sched) (d c : Nat) (f : Int) :
    (f ≤ 0 → Sched.schedule_transmission s d c f = (none, s)) ∧
    (0 < f →
      (Sched.schedule_transmission s d c f).1 = some (jobId d c) ∧
      Sched.getJob (Sched.schedule_transmission s d c f).2 (jobId d c) =
        some { device_id := d, connection_id := c, interval_seconds := f, paused := false } ∧
      Sched.schedule_transmission (Sched.schedule_transmission s d c f).2 d c f =
        Sched.schedule_transmission s d c f ∧
      ((Sched.schedule_transmission s d c f).2.jobs.filter fun p => p.1 == jobId d c).length = 1) := by
  constructor
  · intro h
    simp [Sched.schedule_transmission, h]
  · intro h
    have hnle : ¬ f ≤ 0 := not_le.mpr h
    refine ⟨by simp [Sched.schedule_transmission, hnle], ?_, ?_, ?_⟩
    · simp only [Sched.schedule_transmission, hnle, if_false]
      exact getJob_addJobReplace_self s (jobId d c)
        { device_id := d, connection_id := c, interval_seconds := f, paused := false }
    · simp only [Sched.schedule_transmission, hnle, if_false]
      rw [addJobReplace_idem]
    · simp only [Sched.schedule_transmission, hnle, if_false, Sched.addJobReplace,
        List.filter_append, List.length_append, filter_beq_of_filter_bne]
      simp [List.filter]

theorem c6_schedule_upsert_witness :
    ((3 : Int) ≤ 0 → Sched.schedule_transmission { jobs := [] } 1 2 3 = (none, { jobs := [] })) ∧
    ((0 : Int) < 3 →
      (Sched.schedule_transmission { jobs := [] } 1 2 3).1 = some (jobId 1 2) ∧
      Sched.getJob (Sched.schedule_transmission { jobs := [] } 1 2 3).2 (jobId 1 2) =
        some { device_id := 1, connection_id := 2, interval_seconds := 3, paused := false } ∧
      Sched.schedule_transmission (Sched.schedule_transmission { jobs := [] } 1 2 3).2 1 2 3 =
        Sched.schedule_transmission { jobs := [] } 1 2 3 ∧
      ((Sched.schedule_transmission { jobs := [] } 1 2 3).2.jobs.filter
        fun p => p.1 == jobId 1 2).length = 1) :=
  c6_schedule_upsert { jobs := [] } 1 2 3

/-! ## Claim C8: the sequential payload builder -/

/-- The executor never rewrites the stored dataset. -/
theorem transmit_preserves_csv (d : Device) (c : Connection) (send : SendOutcome) (now : Nat) :
    (deviceAfter (transmit_device_data d c send now) d).csv_data = d.csv_data := by
  unfold transmit_device_data deviceAfter
  by_cases hf : payloadFalsy (d.get_transmission_data now)
  · simp [hf]
  · simp only [hf, Bool.false_eq_true, if_false]
    cases create_client c with
    | error e => simp
    | ok t =>
      cases send with
      | exn m => simp
      | ok succ resp =>
        by_cases hs : (succ && (d.device_type == DeviceType.Sensor)) = true
        · simp only [hs, if_true, Device.update_last_transmission]
          unfold Device.advance_sensor_row
          split <;> rfl
        · simp [hs, Device.update_last_transmission]

/-- Only a successful send moves the cursor; a returned failure, a nil
payload, an unavailable client or a raised exception leave it unchanged. -/
theorem transmit_cursor_unchanged_on_failure (d : Device) (c : Connection)
    (send : SendOutcome) (now : Nat) (r : TransmitResult)
    (hr : transmit_device_data d c send now = .ok r) (hfail : r.success = false) :
    r.device.current_row_index = d.current_row_index := by
  unfold transmit_device_data at hr
  by_cases hf : payloadFalsy (d.get_transmission_data now)
  · simp only [hf, if_true] at hr
    cases hr
    rfl
  · simp only [hf, Bool.false_eq_true, if_false] at hr
    cases hcc : create_client c with
    | error e =>
      rw [hcc] at hr
      exact Except.noConfusion hr
    | ok t =>
      rw [hcc] at hr
      cases send with
      | exn m =>
        cases hr
        rfl
      | ok succ resp =>
        simp only at hr
        cases hr
        simp only at hfail
        subst hfail
        simp [Device.update_last_transmission]

/-- C8: for a Sensor device, the payload is `nil` once the cursor has
reached the dataset length, and otherwise a fresh copy of the row at the
cursor annotated with the generation timestamp (plus the device reference
when configured); neither the dataset nor --- absent a successful send ---
the cursor is mutated. -/
theorem c8_sequential_payload (d : Device) (now : Nat) (rows : List Row)
    (hty : d.device_type = .Sensor) (hrows : d.payloadRows = some rows) :
    (rows.length ≤ d.current_row_index → d.get_transmission_data now = none) ∧
    (∀ h : d.current_row_index < rows.length,
       d.get_transmission_data now = some (.single
         (let row := rowSet (rows.get ⟨d.current_row_index, h⟩) "timestamp" (isoTimestamp now)
          if d.include_device_id_in_payload then rowSet row "device_id" d.reference else row))) ∧
    (∀ c send, (deviceAfter (transmit_device_data d c send now) d).csv_data = d.csv_data) ∧
    (∀ c send r, transmit_device_data d c send now = .ok r → r.success = false →
       r.device.current_row_index = d.current_row_index) := by
  unfold Device.payloadRows at hrows
  rcases Option.bind_eq_some.mp hrows with ⟨cc, hcc, hdr⟩
  have hnext : d.getNextRowData now =
      (if h : d.current_row_index < rows.length then
        some (let row := rowSet (rows.get ⟨d.current_row_index, h⟩) "timestamp" (isoTimestamp now)
              if d.include_device_id_in_payload then rowSet row "device_id" d.reference else row)
       else none) := by
    simp only [Device.getNextRowData, hcc, hdr]
  refine ⟨?_, ?_, fun c send => transmit_preserves_csv d c send now,
    fun c send r => transmit_cursor_unchanged_on_failure d c send now r⟩
  · intro hle
    simp [Device.get_transmission_data, hty, hnext, dif_neg (not_lt.mpr hle)]
  · intro h
    simp [Device.get_transmission_data, hty, hnext, dif_pos h]

theorem c8_sequential_payload_witness :
    devLastRow.payloadRows = some rows3 ∧
    devLastRow.get_transmission_data 55 =
      some (.single
        (let row := rowSet (rows3.get ⟨2, by decide⟩) "timestamp" (isoTimestamp 55)
         if devLastRow.include_device_id_in_payload then rowSet row "device_id" devLastRow.reference
         else row)) ∧
    ({ devLastRow with current_row_index := 3 } : Device).get_transmission_data 55 = none :=
  ⟨by decide,
   (c8_sequential_payload devLastRow 55 rows3 (by decide) (by decide)).2.1 (by decide),
   (c8_sequential_payload { devLastRow with current_row_index := 3 } 55 rows3
     (by decide) (by decide)).1 (by decide)⟩

/-! ## Claim C3: `last_sent_at` (corrected) -/

/-- C3 counterexample: with a nil payload (no CSV loaded), an invocation of
the executor leaves `last_transmission` untouched --- it is NOT set to the
current time 42, contradicting the claim that it updates regardless of
outcome. -/
theorem c3_nil_payload_counterexample :
    payloadFalsy (devNoData.get_transmission_data 42) = true ∧
    (deviceAfter (transmit_device_data devNoData connMqtt (.ok true "x") 42) devNoData).last_transmission = none ∧
    (deviceAfter (transmit_device_data devNoData connMqtt (.ok true "x") 42) devNoData).last_transmission ≠ some 42 := by
  decide

/-- C3 amended: `last_transmission` is set to now exactly when the payload
is non-nil, the connection type has a client, and `send` returns without
raising (successfully or not); on a nil payload, an unsupported connection
type (where the factory raises) or a raised send, it is left unchanged. -/
theorem c3_last_transmission_characterization (d : Device) (c : Connection)
    (send : SendOutcome) (now : Nat) :
    (deviceAfter (transmit_device_data d c send now) d).last_transmission =
      (if (!payloadFalsy (d.get_transmission_data now) && clientSupported c
            && send.returns) = true
       then some now else d.last_transmission) := by
  unfold transmit_device_data deviceAfter
  by_cases hf : payloadFalsy (d.get_transmission_data now)
  · simp [hf]
  · simp only [hf, Bool.false_eq_true, if_false, Bool.not_false, Bool.true_and]
    by_cases hm : c.type == "MQTT"
    · simp only [create_client, clientSupported, hm, if_true, Bool.true_or, Bool.true_and]
      cases send <;> simp [SendOutcome.returns, Device.update_last_transmission]
    · by_cases hh : c.type == "HTTPS"
      · simp only [create_client, clientSupported, hm, hh, Bool.false_eq_true, if_false,
          if_true, Bool.false_or, Bool.true_and]
        cases send <;> simp [SendOutcome.returns, Device.update_last_transmission]
      · simp [create_client, clientSupported, hm, hh]

/-! ## Claim C4: frequency bounds at `schedule` (corrected) -/

/-- C4 counterexample: a CONTINUOUS-category (WebApp) device with frequency
30 is NOT rejected: `schedule_transmission` returns a job id and creates
the job, and `start_automatic_transmission` succeeds, although the
60-second floor of `validate_frequency_by_device_type` would reject 30. -/
theorem c4_webapp30_scheduled_counterexample :
    devWebApp30.device_type = DeviceType.WebApp ∧
    devWebApp30.transmission_frequency = 30 ∧
    (Sched.schedule_transmission { jobs := [] } 3 1 30).1 = some (jobId 3 1) ∧
    Sched.job_exists (Sched.schedule_transmission { jobs := [] } 3 1 30).2 3 1 = true ∧
    (TSM.start_automatic_transmission wWebApp30 3 1).1 = true ∧
    Sched.job_exists (TSM.start_automatic_transmission wWebApp30 3 1).2.sched 3 1 = true ∧
    (validate_frequency_by_device_type .WebApp 30).isOk = false := by
  decide

/-- C4 amended: the scheduling path rejects exactly the non-positive
frequencies: `schedule_transmission` refuses `f <= 0` with no job created,
and `start_automatic_transmission` refuses a device whose configured
frequency is non-positive, leaving the world unchanged.  The category
floors (60 s for WebApp, 1 s for Sensor) live only in
`validate_frequency_by_device_type`, which the scheduling path never
invokes. -/
theorem c4_frequency_validation (s : Sched) (d c : Nat) (f : Int) (w : World)
    (did cid : Nat) (dev : Device)
    (hdev : w.getDevice did = some dev) (hf0 : dev.transmission_frequency ≤ 0) :
    (f ≤ 0 → Sched.schedule_transmission s d c f = (none, s)) ∧
    TSM.start_automatic_transmission w did cid = (false, w) ∧
    (∀ g : Int, g < 60 → (validate_frequency_by_device_type .WebApp g).isOk = false) ∧
    (∀ g : Int, g < 1 → (validate_frequency_by_device_type .Sensor g).isOk = false) := by
  refine ⟨?_, ?_, ?_, ?_⟩
  · intro h
    simp [Sched.schedule_transmission, h]
  · simp [TSM.start_automatic_transmission, hdev, hf0]
  · intro g hg
    simp [validate_frequency_by_device_type, hg, Except.isOk, Except.toBool]
  · intro g hg
    simp [validate_frequency_by_device_type, hg, Except.isOk, Except.toBool]

theorem c4_frequency_validation_witness :
    ((0 : Int) ≤ 0 → Sched.schedule_transmission { jobs := [] } 4 1 0 = (none, { jobs := [] })) ∧
    TSM.start_automatic_transmission wFreqZero 4 1 = (false, wFreqZero) ∧
    (∀ g : Int, g < 60 → (validate_frequency_by_device_type .WebApp g).isOk = false) ∧
    (∀ g : Int, g < 1 → (validate_frequency_by_device_type .Sensor g).isOk = false) :=
  c4_frequency_validation { jobs := [] } 4 1 0 wFreqZero 4 1 devFreqZero (by decide) (by decide)

/-! ## Claim C5: global concurrency cap (corrected) -/

/-- C5 counterexample: with ten jobs already scheduled (the default global
cap), starting an eleventh automatic transmission SUCCEEDS and an eleventh
job is created; `can_start_transmission` reports `(true, none)` because its
job-id filter (substring `device_`) matches none of the real
`transmission_...` ids, so `_get_active_transmissions` is empty. -/
theorem c5_cap_not_enforced_counterexample :
    schedTen.jobs.length = 10 ∧
    _get_active_transmissions schedTen = [] ∧
    can_start_transmission schedTen 11 = (true, none) ∧
    (TSM.start_automatic_transmission wAtCap 11 1).1 = true ∧
    (TSM.start_automatic_transmission wAtCap 11 1).2.sched.jobs.length = 11 := by
  decide

/-- C5 amended: no global concurrency cap is enforced.
`start_automatic_transmission` succeeds whenever the device exists with a
positive frequency and the connection exists and is active, regardless of
how many jobs are already scheduled (it never consults
`can_start_transmission`); and `can_start_transmission` itself returns
`(true, none)` on every scheduler state whose job ids lack the substring
`device_` --- as all ids created by the scheduler do, since they start
with `transmission_`. -/
theorem c5_no_global_cap (w : World) (did cid : Nat) (dev : Device) (c : Connection)
    (hdev : w.getDevice did = some dev) (hf : 0 < dev.transmission_frequency)
    (hc : w.getConnection cid = some c) (hact : c.is_active = true) :
    (TSM.start_automatic_transmission w did cid).1 = true ∧
    (∀ s : Sched, (∀ id ∈ Sched.scheduled_job_ids s, strContains id "device_" = false) →
       ∀ d', can_start_transmission s d' = (true, none)) := by
  constructor
  · simp only [TSM.start_automatic_transmission, hdev, hc, hact, Bool.not_true,
      Bool.false_eq_true, if_false, not_le.mpr hf]
    simp only [Sched.schedule_transmission, not_le.mpr hf, if_neg (not_le.mpr hf)]
    simp [not_le.mpr hf]
  · intro s hids d'
    have hempty : _get_active_transmissions s = [] := by
      unfold _get_active_transmissions
      revert hids
      generalize Sched.scheduled_job_ids s = l
      intro hids
      induction l with
      | nil => rfl
      | cons a t ih =>
        simp only [List.foldr_cons, hids a (List.mem_cons_self a t), Bool.false_eq_true, if_false]
        exact ih fun id hid => hids id (List.mem_cons_of_mem a hid)
    simp [can_start_transmission, hempty, MAX_CONCURRENT_TRANSMISSIONS_PER_DEVICE,
      MAX_GLOBAL_CONCURRENT_TRANSMISSIONS]

theorem c5_no_global_cap_witness :
    (TSM.start_automatic_transmission wAtCap 11 1).1 = true ∧
    (∀ s : Sched, (∀ id ∈ Sched.scheduled_job_ids s, strContains id "device_" = false) →
       ∀ d', can_start_transmission s d' = (true, none)) :=
  c5_no_global_cap wAtCap 11 1 devEleven connMqtt (by decide) (by decide) (by decide) (by decide)

/-! ## Claim C1: SEQUENTIAL completion policy (corrected) -/

/-- C1 counterexample: `devLastRow` has a 3-row dataset and cursor 2.  One
successful scheduled execution advances the cursor to 3 --- but no
completion policy fires: the device stays enabled, the cursor is NOT reset
to 0, and the job remains scheduled.  The NEXT firing then resets the
cursor and keeps transmitting (row 0 is sent, cursor ends at 1, still
enabled): the device loops instead of auto-pausing. -/
theorem c1_no_autopause_counterexample :
    ((execute_transmission_job wLastRow 1 1 (.ok true "OK") 100).1.getDevice 1).map
        Device.current_row_index = some 3 ∧
    ((execute_transmission_job wLastRow 1 1 (.ok true "OK") 100).1.getDevice 1).map
        Device.transmission_enabled = some true ∧
    Sched.job_exists (execute_transmission_job wLastRow 1 1 (.ok true "OK") 100).1.sched 1 1 = true ∧
    ((execute_transmission_job
        (execute_transmission_job wLastRow 1 1 (.ok true "OK") 100).1
        1 1 (.ok true "OK") 200).1.getDevice 1).map Device.current_row_index = some 1 ∧
    ((execute_transmission_job
        (execute_transmission_job wLastRow 1 1 (.ok true "OK") 100).1
        1 1 (.ok true "OK") 200).1.getDevice 1).map Device.transmission_enabled = some true := by
  decide

theorem create_client_of_supported {c : Connection} (h : clientSupported c = true) :
    ∃ t, create_client c = .ok t := by
  unfold clientSupported at h
  by_cases hm : c.type == "MQTT"
  · exact ⟨"MQTT", by simp [create_client, hm]⟩
  · have hh : (c.type == "HTTPS") = true := by simpa [hm] using h
    exact ⟨"HTTPS", by simp [create_client, hm, hh]⟩

theorem rowSet_isEmpty (r : Row) (k v : String) : (rowSet r k v).isEmpty = false := by
  simp [rowSet]

/-- C1 amended: for a SEQUENTIAL (Sensor) device sitting on the last row of
its dataset, one successful scheduled execution advances the cursor to the
dataset length, keeps `transmission_enabled` unchanged, logs SUCCESS, and
leaves the scheduler job store untouched --- no auto-pause fires within the
execution.  (The auto-pause rule of
`TransmissionBusinessRules.apply_sensor_completion_rule` has no caller on
this path; the job callback instead resets the cursor to 0 at its NEXT
firing and keeps transmitting.) -/
theorem c1_no_autopause_on_completion (w : World) (did cid : Nat) (d : Device)
    (c : Connection) (cc : CsvContent) (rows : List Row) (resp : String) (now : Nat)
    (hd : w.getDevice did = some d) (hc : w.getConnection cid = some c)
    (hen : d.transmission_enabled = true) (hty : d.device_type = .Sensor)
    (hcsv : d.csv_data = some cc) (hdata : cc.data = some rows)
    (hlast : d.current_row_index + 1 = rows.length)
    (hcl : clientSupported c = true) :
    ∃ entry : LogEntry,
      execute_transmission_job w did cid (.ok true resp) now =
        (w.saveDevice { d with current_row_index := rows.length, last_transmission := some now },
         [entry]) ∧
      entry.status = "SUCCESS" ∧
      (execute_transmission_job w did cid (.ok true resp) now).1.sched = w.sched ∧
      ({ d with current_row_index := rows.length, last_transmission := some now } : Device).transmission_enabled = true := by
  have hlt : d.current_row_index < rows.length := by omega
  have hne : rows.isEmpty = false := by
    cases rows with
    | nil => simp at hlast
    | cons a t => rfl
  have hdrows : dataRowsOf cc = some rows := by
    simp [dataRowsOf, hdata]
  have hpay : d.get_transmission_data now = some (.single
      (let row := rowSet (rows.get ⟨d.current_row_index, hlt⟩) "timestamp" (isoTimestamp now)
       if d.include_device_id_in_payload then rowSet row "device_id" d.reference else row)) := by
    simp [Device.get_transmission_data, hty, Device.getNextRowData, hcsv, hdrows, dif_pos hlt]
  have hfalsy : payloadFalsy (d.get_transmission_data now) = false := by
    rw [hpay]
    cases hflag : d.include_device_id_in_payload <;> simp [payloadFalsy, hflag, rowSet_isEmpty]
  obtain ⟨t, ht⟩ := create_client_of_supported hcl
  have htr : transmit_device_data d c (.ok true resp) now = .ok
      { success := true,
        device := { d with current_row_index := d.current_row_index + 1, last_transmission := some now },
        log := mkLog d.id c.id (d.get_transmission_data now) "SUCCESS" (some resp) none } := by
    unfold transmit_device_data
    simp only [hfalsy, Bool.false_eq_true, if_false, ht]
    simp [hty, Device.advance_sensor_row, Device.update_last_transmission]
  have hjob : jobDataRows cc = rows := by
    simp [jobDataRows, hdata, hne]
  have hnotge : ¬ d.current_row_index ≥ (jobDataRows cc).length := by
    rw [hjob]
    omega
  have hexec : execute_transmission_job w did cid (.ok true resp) now =
      (w.saveDevice { d with current_row_index := d.current_row_index + 1,
                             last_transmission := some now },
       [mkLog d.id c.id (d.get_transmission_data now) "SUCCESS" (some resp) none]) := by
    simp only [execute_transmission_job, hd, hc, hen, Bool.not_true, Bool.false_eq_true,
      if_false, hty, if_true, hcsv, hnotge, htr]
  rw [hlast] at hexec
  exact ⟨mkLog d.id c.id (d.get_transmission_data now) "SUCCESS" (some resp) none,
    hexec, rfl, by rw [hexec]; rfl, hen⟩

theorem c1_no_autopause_on_completion_witness :
    ∃ entry : LogEntry,
      execute_transmission_job wLastRow 1 1 (.ok true "OK") 100 =
        (wLastRow.saveDevice
          { devLastRow with current_row_index := rows3.length, last_transmission := some 100 },
         [entry]) ∧
      entry.status = "SUCCESS" ∧
      (execute_transmission_job wLastRow 1 1 (.ok true "OK") 100).1.sched = wLastRow.sched ∧
      ({ devLastRow with current_row_index := rows3.length, last_transmission := some 100 } : Device).transmission_enabled = true :=
  c1_no_autopause_on_completion wLastRow 1 1 devLastRow connMqtt
    { data := some rows3, json_preview := none } rows3 "OK" 100
    (by decide) (by decide) (by decide) (by decide) (by decide) (by decide) (by decide) (by decide)

end IoTDevSim
